import Mathlib

/-!
# Idle inhibitors of sway (`sway/desktop/idle_inhibit_v1.c`)

A shallow embedding of the inhibitor registry, the activation predicate
`sway_idle_inhibit_v1_is_active` and the aggregator
`sway_idle_inhibit_v1_check_active`, followed by the properties proved about them.

Memory model.  Objects are named by their address (a `Nat`); a C pointer that may be
`NULL` is an `Option`.  The fields of objects owned by the windowing core, and the
query functions of the windowing core and of wlroots that the file calls, are fields
of the read-only snapshot `sway_server`.  A step that would dereference a `NULL` or a
freed pointer has no result (`none`).
-/

namespace Sway

/-- Address of a `struct sway_view`. -/
abbrev sway_view := Nat

/-- Address of a `struct sway_container`. -/
abbrev sway_container := Nat

/-- Address of a `struct sway_seat`. -/
abbrev sway_seat := Nat

/-- Address of a `struct wlr_surface`. -/
abbrev wlr_surface := Nat

/-- The activation modes, `enum sway_idle_inhibit_mode`. -/
inductive sway_idle_inhibit_mode where
  | INHIBIT_IDLE_APPLICATION
  | INHIBIT_IDLE_FOCUS
  | INHIBIT_IDLE_FULLSCREEN
  | INHIBIT_IDLE_OPEN
  | INHIBIT_IDLE_VISIBLE
  deriving DecidableEq, Repr

open sway_idle_inhibit_mode

/-- The part of `struct wlr_idle_inhibitor_v1` the file reads: its (non-NULL) surface. -/
structure wlr_idle_inhibitor_v1 where
  surface : wlr_surface
  deriving DecidableEq, Repr

/-- The part of `struct wlr_output` the file reads. -/
structure wlr_output where
  enabled : Bool
  deriving DecidableEq, Repr

/-- The part of `struct wlr_layer_surface_v1` the file reads: `output` may be `NULL`. -/
structure wlr_layer_surface_v1 where
  output : Option wlr_output
  deriving DecidableEq, Repr

/-- One record, `struct sway_idle_inhibitor_v1`.  `addr` is the address of the record
(the value of a pointer to it); `view` and `wlr_inhibitor` are pointer fields, `none`
being `NULL`, which is what `calloc` leaves in a field that is never assigned. -/
structure sway_idle_inhibitor_v1 where
  addr : Nat
  mode : sway_idle_inhibit_mode
  view : Option sway_view
  wlr_inhibitor : Option wlr_idle_inhibitor_v1
  deriving DecidableEq, Repr

/-- Read-only snapshot of the windowing and session-lock state that the file consults
through the global `server` and through functions defined elsewhere. -/
structure sway_server where
  /-- The pointer `server.session_lock.lock`; `none` is `NULL` (no lock active). -/
  session_lock_lock : Option Nat
  /-- The list `server.input->seats`, in iteration order. -/
  seats : List sway_seat
  /-- The function `seat_get_focused_container(seat)`; `none` is `NULL`. -/
  seat_get_focused_container : sway_seat → Option sway_container
  /-- The field `con->view`. -/
  container_view : sway_container → Option sway_view
  /-- The field `view->container`; `none`: the view has no realized container. -/
  view_container : sway_view → Option sway_container
  /-- The function `container_is_fullscreen_or_child(con)`. -/
  container_is_fullscreen_or_child : sway_container → Bool
  /-- The function `view_is_visible(view)`. -/
  view_is_visible : sway_view → Bool
  /-- The function `view_from_wlr_surface(surface)`; `none` is `NULL`. -/
  view_from_wlr_surface : wlr_surface → Option sway_view
  /-- The function `wlr_layer_surface_v1_try_from_wlr_surface(surface)`. -/
  wlr_layer_surface_v1_try_from_wlr_surface : wlr_surface → Option wlr_layer_surface_v1
  /-- The function `wlr_session_lock_surface_v1_try_from_wlr_surface(surface)`: the
  lock-surface object of a surface that is a session-lock surface, else `NULL`. -/
  wlr_session_lock_surface_v1_try_from_wlr_surface : wlr_surface → Option Nat
  /-- The field `wlr_surface->mapped`. -/
  mapped : wlr_surface → Bool

/-- The state the file mutates: the list `server.idle_inhibit_manager_v1.inhibitors` in
`wl_list_for_each` order (head first), and the idle notifier, recorded as the arguments
of every `wlr_idle_notifier_v1_set_inhibited` call so far, most recent first. -/
structure sway_idle_inhibit_manager_v1 where
  inhibitors : List sway_idle_inhibitor_v1
  set_inhibited : List Bool
  deriving DecidableEq, Repr

/-- The activation predicate `sway_idle_inhibit_v1_is_active`.  The result is `none`
where the C code dereferences a `NULL` field of the record. -/
def sway_idle_inhibit_v1_is_active (server : sway_server)
    (inhibitor : sway_idle_inhibitor_v1) : Option Bool :=
  if server.session_lock_lock.isSome then
    if inhibitor.mode ≠ INHIBIT_IDLE_APPLICATION then
      some false
    else
      match inhibitor.wlr_inhibitor with
      | none => none
      | some wlr_inhibitor =>
        if (server.wlr_session_lock_surface_v1_try_from_wlr_surface
            wlr_inhibitor.surface).isNone then
          some false
        else
          some (server.mapped wlr_inhibitor.surface)
  else
    match inhibitor.mode with
    | INHIBIT_IDLE_APPLICATION =>
      match inhibitor.wlr_inhibitor with
      | none => none
      | some wlr_inhibitor =>
        match server.wlr_layer_surface_v1_try_from_wlr_surface wlr_inhibitor.surface with
        | some layer_surface =>
          match layer_surface.output with
          | none => some false
          | some output => some (output.enabled && server.mapped wlr_inhibitor.surface)
        | none =>
          match server.view_from_wlr_surface wlr_inhibitor.surface with
          | none => some false
          | some view =>
            match server.view_container view with
            | none => some false
            | some _ => some (server.view_is_visible view)
    | INHIBIT_IDLE_FOCUS =>
      some (server.seats.any fun seat =>
        match server.seat_get_focused_container seat with
        | none => false
        | some con =>
          match server.container_view con with
          | none => false
          | some view => decide (some view = inhibitor.view))
    | INHIBIT_IDLE_FULLSCREEN =>
      match inhibitor.view with
      | none => none
      | some view =>
        match server.view_container view with
        | none => some false
        | some con =>
          some (server.container_is_fullscreen_or_child con && server.view_is_visible view)
    | INHIBIT_IDLE_OPEN => some true
    | INHIBIT_IDLE_VISIBLE =>
      match inhibitor.view with
      | none => none
      | some view => some (server.view_is_visible view)

/-- The loop of `sway_idle_inhibit_v1_check_active`: the value of `inhibited` when the
loop ends, the scan stopping at the first record that is active. -/
def check_active_loop (server : sway_server) :
    List sway_idle_inhibitor_v1 → Option Bool
  | [] => some false
  | inhibitor :: rest =>
    match sway_idle_inhibit_v1_is_active server inhibitor with
    | none => none
    | some true => some true
    | some false => check_active_loop server rest

/-- The aggregator `sway_idle_inhibit_v1_check_active`: scan, then one call of
`wlr_idle_notifier_v1_set_inhibited`. -/
def sway_idle_inhibit_v1_check_active (server : sway_server)
    (manager : sway_idle_inhibit_manager_v1) : Option sway_idle_inhibit_manager_v1 :=
  match check_active_loop server manager.inhibitors with
  | none => none
  | some inhibited =>
    some { inhibitors := manager.inhibitors
           set_inhibited := inhibited :: manager.set_inhibited }

/-- The function `destroy_inhibitor`, on a pointer to a record.  `wl_list_remove` unlinks
the record the pointer names; a pointer that names no record of the list is a pointer to
freed memory, and the call has no defined result. -/
def destroy_inhibitor (server : sway_server) (manager : sway_idle_inhibit_manager_v1)
    (inhibitor : Nat) : Option sway_idle_inhibit_manager_v1 :=
  match manager.inhibitors.find? (fun r => r.addr == inhibitor) with
  | none => none
  | some _ =>
    sway_idle_inhibit_v1_check_active server
      { inhibitors := manager.inhibitors.eraseP (fun r => r.addr == inhibitor)
        set_inhibited := manager.set_inhibited }

/-- The handler `handle_idle_inhibitor_v1`.  `calloc` is the outcome of the allocation:
`none` when it fails, else the address of the new record.  `wl_list_insert` on the list
head puts the new record first in iteration order. -/
def handle_idle_inhibitor_v1 (server : sway_server)
    (manager : sway_idle_inhibit_manager_v1) (calloc : Option Nat)
    (wlr_inhibitor : wlr_idle_inhibitor_v1) : Option sway_idle_inhibit_manager_v1 :=
  match calloc with
  | none => some manager
  | some addr =>
    sway_idle_inhibit_v1_check_active server
      { inhibitors :=
          { addr := addr, mode := INHIBIT_IDLE_APPLICATION, view := none,
            wlr_inhibitor := some wlr_inhibitor } :: manager.inhibitors
        set_inhibited := manager.set_inhibited }

/-- The function `sway_idle_inhibit_v1_user_inhibitor_register`; `calloc` as in
`handle_idle_inhibitor_v1`.  The mode is stored as given. -/
def sway_idle_inhibit_v1_user_inhibitor_register (server : sway_server)
    (manager : sway_idle_inhibit_manager_v1) (calloc : Option Nat)
    (view : sway_view) (mode : sway_idle_inhibit_mode) :
    Option sway_idle_inhibit_manager_v1 :=
  match calloc with
  | none => some manager
  | some addr =>
    sway_idle_inhibit_v1_check_active server
      { inhibitors :=
          { addr := addr, mode := mode, view := some view,
            wlr_inhibitor := none } :: manager.inhibitors
        set_inhibited := manager.set_inhibited }

/-- The lookup `sway_idle_inhibit_v1_user_inhibitor_for_view`: the first record in
iteration order with a mode other than APPLICATION and `inhibitor->view == view`. -/
def sway_idle_inhibit_v1_user_inhibitor_for_view
    (manager : sway_idle_inhibit_manager_v1) (view : Option sway_view) :
    Option sway_idle_inhibitor_v1 :=
  manager.inhibitors.find? fun inhibitor =>
    decide (inhibitor.mode ≠ INHIBIT_IDLE_APPLICATION) && decide (inhibitor.view = view)

/-- The loop of `sway_idle_inhibit_v1_application_inhibitor_for_view`.  The outer
`Option` is `none` where the loop dereferences a `NULL` `wlr_inhibitor`; the inner one
is the returned pointer. -/
def application_inhibitor_for_view_loop (server : sway_server) (view : Option sway_view) :
    List sway_idle_inhibitor_v1 → Option (Option sway_idle_inhibitor_v1)
  | [] => some none
  | inhibitor :: rest =>
    if inhibitor.mode = INHIBIT_IDLE_APPLICATION then
      match inhibitor.wlr_inhibitor with
      | none => none
      | some wlr_inhibitor =>
        if server.view_from_wlr_surface wlr_inhibitor.surface = view then
          some (some inhibitor)
        else
          application_inhibitor_for_view_loop server view rest
    else
      application_inhibitor_for_view_loop server view rest

/-- The lookup `sway_idle_inhibit_v1_application_inhibitor_for_view`. -/
def sway_idle_inhibit_v1_application_inhibitor_for_view (server : sway_server)
    (manager : sway_idle_inhibit_manager_v1) (view : Option sway_view) :
    Option (Option sway_idle_inhibitor_v1) :=
  application_inhibitor_for_view_loop server view manager.inhibitors

/-- Modelled from the spec: the macro `sway_assert` of `log.h`, which is not among the
sources at hand.  The spec describes a failed assertion as "rejected (no-op, logged as
contract violation)": the macro logs the message and yields its condition. -/
def sway_assert (condition : Bool) : Bool :=
  condition

/-- The function `sway_idle_inhibit_v1_user_inhibitor_destroy`, on a pointer (`none` is
`NULL`).  Reading `inhibitor->mode` through a pointer that names no live record has no
defined result. -/
def sway_idle_inhibit_v1_user_inhibitor_destroy (server : sway_server)
    (manager : sway_idle_inhibit_manager_v1) (inhibitor : Option Nat) :
    Option sway_idle_inhibit_manager_v1 :=
  match inhibitor with
  | none => some manager
  | some p =>
    match manager.inhibitors.find? (fun r => r.addr == p) with
    | none => none
    | some r =>
      if !sway_assert (decide (r.mode ≠ INHIBIT_IDLE_APPLICATION)) then
        some manager
      else
        destroy_inhibitor server manager p

/-- The value the idle notifier holds: the argument of the last
`wlr_idle_notifier_v1_set_inhibited` call, if there was one. -/
def last_published (manager : sway_idle_inhibit_manager_v1) : Option Bool :=
  manager.set_inhibited.head?

/-- The logical OR of the activation predicate over a list of records. -/
def any_active (server : sway_server) (inhibitors : List sway_idle_inhibitor_v1) : Bool :=
  inhibitors.any fun r => sway_idle_inhibit_v1_is_active server r == some true

/-- A snapshot for the examples.  Views: 1 (container 101, visible), 2 (container 102,
fullscreen, not visible), 3 (no container).  Surfaces: 11 and 12 belong to views 1 and 2;
20 and 21 are layer surfaces on an enabled and on a disabled output; 30 and 31 are
session-lock surfaces, 30 mapped and 31 not.  Seats 0 and 1, with the focus given by
`focused`. -/
def demo_server (lock : Option Nat) (focused : sway_seat → Option sway_container) :
    sway_server where
  session_lock_lock := lock
  seats := [0, 1]
  seat_get_focused_container := focused
  container_view := fun con =>
    if con = 101 then some 1 else if con = 102 then some 2 else none
  view_container := fun view =>
    if view = 1 then some 101 else if view = 2 then some 102 else none
  container_is_fullscreen_or_child := fun con => decide (con = 102)
  view_is_visible := fun view => decide (view = 1)
  view_from_wlr_surface := fun surface =>
    if surface = 11 then some 1 else if surface = 12 then some 2 else none
  wlr_layer_surface_v1_try_from_wlr_surface := fun surface =>
    if surface = 20 then some { output := some { enabled := true } }
    else if surface = 21 then some { output := some { enabled := false } }
    else none
  wlr_session_lock_surface_v1_try_from_wlr_surface := fun surface =>
    if surface = 30 then some 300 else if surface = 31 then some 301 else none
  mapped := fun surface => decide (surface ≠ 31)

/-- No seat has a focused container. -/
def no_focus : sway_seat → Option sway_container := fun _ => none

/-- Seat 1 (the second seat) focuses container 101, seat 0 focuses nothing. -/
def focus_101_on_seat_1 : sway_seat → Option sway_container :=
  fun seat => if seat = 1 then some 101 else none

/-- A record as `handle_idle_inhibitor_v1` builds it. -/
def application_record (addr : Nat) (surface : wlr_surface) : sway_idle_inhibitor_v1 :=
  { addr := addr, mode := INHIBIT_IDLE_APPLICATION, view := none,
    wlr_inhibitor := some { surface := surface } }

/-- A record as `sway_idle_inhibit_v1_user_inhibitor_register` builds it. -/
def view_record (addr : Nat) (mode : sway_idle_inhibit_mode) (view : sway_view) :
    sway_idle_inhibitor_v1 :=
  { addr := addr, mode := mode, view := some view, wlr_inhibitor := none }

/-- The records of a registry are distinct objects: no two share an address. -/
def distinct_addresses (inhibitors : List sway_idle_inhibitor_v1) : Prop :=
  (inhibitors.map fun r => r.addr).Nodup

/-- The test of the loop in `sway_idle_inhibit_v1_user_inhibitor_for_view`, on a view. -/
def user_match (view : sway_view) (r : sway_idle_inhibitor_v1) : Prop :=
  r.mode ≠ INHIBIT_IDLE_APPLICATION ∧ r.view = some view

/-- The test of the loop in `sway_idle_inhibit_v1_application_inhibitor_for_view`, on a
view and a record that carries its protocol inhibitor. -/
def application_match (server : sway_server) (view : sway_view)
    (r : sway_idle_inhibitor_v1) : Prop :=
  r.mode = INHIBIT_IDLE_APPLICATION ∧
    ∃ w, r.wlr_inhibitor = some w ∧ server.view_from_wlr_surface w.surface = some view

/-- The shape invariant of a record: an APPLICATION record carries a protocol inhibitor
(hence a surface) and no view; a record of any other mode carries a view and no protocol
inhibitor. -/
def target_matches_mode (r : sway_idle_inhibitor_v1) : Prop :=
  if r.mode = INHIBIT_IDLE_APPLICATION then
    r.wlr_inhibitor.isSome = true ∧ r.view = none
  else
    r.view.isSome = true ∧ r.wlr_inhibitor = none

instance : DecidablePred target_matches_mode := fun r => by
  unfold target_matches_mode
  infer_instance

/-- A second snapshot for the examples: `demo_server` under lock 8 with seat 1 focusing
container 101, every view visible, every container fullscreen and no layer surface. -/
def demo_server_behind_lock : sway_server :=
  { demo_server (some 8) focus_101_on_seat_1 with
    view_is_visible := fun _ => true
    container_is_fullscreen_or_child := fun _ => true
    wlr_layer_surface_v1_try_from_wlr_surface := fun _ => none }

/-- The empty registry with nothing published yet. -/
def empty_manager : sway_idle_inhibit_manager_v1 :=
  { inhibitors := [], set_inhibited := [] }

/-! ## Properties -/

theorem check_active_loop_eq_any (server : sway_server) :
    ∀ inhibitors : List sway_idle_inhibitor_v1,
      (∀ r ∈ inhibitors, sway_idle_inhibit_v1_is_active server r ≠ none) →
      check_active_loop server inhibitors = some (any_active server inhibitors)
  | [], _ => rfl
  | r :: rest, h => by
    have hr := h r (List.mem_cons_self r rest)
    have ih := check_active_loop_eq_any server rest
      (fun x hx => h x (List.mem_cons_of_mem r hx))
    unfold check_active_loop
    cases hv : sway_idle_inhibit_v1_is_active server r with
    | none => exact absurd hv hr
    | some b =>
      cases b
      · simp [ih, any_active, hv]
      · simp [any_active, hv]

theorem any_active_perm (server : sway_server) {l₁ l₂ : List sway_idle_inhibitor_v1}
    (h : l₁.Perm l₂) : any_active server l₁ = any_active server l₂ := by
  unfold any_active
  induction h with
  | nil => rfl
  | cons x _ ih => simp [ih]
  | swap x y l => simp [Bool.or_left_comm]
  | trans _ _ ih₁ ih₂ => exact ih₁.trans ih₂

theorem check_active_eq (server : sway_server) (manager : sway_idle_inhibit_manager_v1)
    (h : ∀ r ∈ manager.inhibitors, sway_idle_inhibit_v1_is_active server r ≠ none) :
    sway_idle_inhibit_v1_check_active server manager =
      some { inhibitors := manager.inhibitors
             set_inhibited := any_active server manager.inhibitors :: manager.set_inhibited } := by
  unfold sway_idle_inhibit_v1_check_active
  rw [check_active_loop_eq_any server manager.inhibitors h]

/-- C1: on a registry whose records all evaluate, `sway_idle_inhibit_v1_check_active`
publishes exactly the logical OR of `sway_idle_inhibit_v1_is_active` over the records
(and leaves the registry as it is), and it publishes that same value on every
permutation of the registry. -/
theorem check_active_publishes_or (server : sway_server)
    (manager : sway_idle_inhibit_manager_v1)
    (h : ∀ r ∈ manager.inhibitors, sway_idle_inhibit_v1_is_active server r ≠ none) :
    sway_idle_inhibit_v1_check_active server manager =
        some { inhibitors := manager.inhibitors
               set_inhibited :=
                 (manager.inhibitors.any fun r =>
                    sway_idle_inhibit_v1_is_active server r == some true)
                   :: manager.set_inhibited } ∧
      ∀ permuted : sway_idle_inhibit_manager_v1,
        permuted.inhibitors.Perm manager.inhibitors →
        ∃ after, sway_idle_inhibit_v1_check_active server permuted = some after ∧
          last_published after =
            some (manager.inhibitors.any fun r =>
              sway_idle_inhibit_v1_is_active server r == some true) := by
  refine ⟨check_active_eq server manager h, fun permuted hp => ?_⟩
  have h2 : ∀ r ∈ permuted.inhibitors, sway_idle_inhibit_v1_is_active server r ≠ none :=
    fun r hr => h r (hp.subset hr)
  refine ⟨_, check_active_eq server permuted h2, ?_⟩
  simp only [last_published, List.head?_cons]
  exact congrArg some (any_active_perm server hp)

/-- Witness for C1: a FOCUS record on the unfocused view 1, which is inactive, followed
by an APPLICATION record on the surface of that visible view, with no lock: `true` is
published. -/
theorem check_active_publishes_or_witness :
    sway_idle_inhibit_v1_check_active (demo_server none no_focus)
        { inhibitors := [view_record 1 INHIBIT_IDLE_FOCUS 1, application_record 2 11]
          set_inhibited := [] } =
      some { inhibitors := [view_record 1 INHIBIT_IDLE_FOCUS 1, application_record 2 11]
             set_inhibited := [true] } ∧
    sway_idle_inhibit_v1_is_active (demo_server none no_focus)
        (view_record 1 INHIBIT_IDLE_FOCUS 1) = some false :=
  ⟨(check_active_publishes_or (demo_server none no_focus)
      { inhibitors := [view_record 1 INHIBIT_IDLE_FOCUS 1, application_record 2 11]
        set_inhibited := [] } (by decide)).1, by decide⟩

/-- C2: while a session lock is active, a record of mode FOCUS, FULLSCREEN, OPEN or
VISIBLE is inactive, whatever the state of its window. -/
theorem is_active_locked_user_modes (server : sway_server)
    (inhibitor : sway_idle_inhibitor_v1)
    (hlock : server.session_lock_lock.isSome = true)
    (hmode : inhibitor.mode = INHIBIT_IDLE_FOCUS ∨ inhibitor.mode = INHIBIT_IDLE_FULLSCREEN ∨
      inhibitor.mode = INHIBIT_IDLE_OPEN ∨ inhibitor.mode = INHIBIT_IDLE_VISIBLE) :
    sway_idle_inhibit_v1_is_active server inhibitor = some false := by
  unfold sway_idle_inhibit_v1_is_active
  rcases hmode with h | h | h | h <;> simp [hlock, h]

/-- Witness for C2: an OPEN record on the visible, focused view 1 under a lock. -/
theorem is_active_locked_user_modes_witness :
    sway_idle_inhibit_v1_is_active (demo_server (some 7) focus_101_on_seat_1)
      (view_record 1 INHIBIT_IDLE_OPEN 1) = some false :=
  is_active_locked_user_modes (demo_server (some 7) focus_101_on_seat_1)
    (view_record 1 INHIBIT_IDLE_OPEN 1) (by decide) (by decide)

/-- C3: while a session lock is active, an APPLICATION record (carrying its protocol
inhibitor) evaluates, and is active iff its surface is a session-lock surface and is
mapped; on a surface that is not a session-lock surface it is inactive. -/
theorem is_active_locked_application (server : sway_server)
    (inhibitor : sway_idle_inhibitor_v1) (wlr_inhibitor : wlr_idle_inhibitor_v1)
    (hlock : server.session_lock_lock.isSome = true)
    (hmode : inhibitor.mode = INHIBIT_IDLE_APPLICATION)
    (hsurf : inhibitor.wlr_inhibitor = some wlr_inhibitor) :
    (∃ b, sway_idle_inhibit_v1_is_active server inhibitor = some b ∧
      (b = true ↔
        (server.wlr_session_lock_surface_v1_try_from_wlr_surface
            wlr_inhibitor.surface).isSome = true ∧
          server.mapped wlr_inhibitor.surface = true)) ∧
    (server.wlr_session_lock_surface_v1_try_from_wlr_surface wlr_inhibitor.surface = none →
      sway_idle_inhibit_v1_is_active server inhibitor = some false) := by
  unfold sway_idle_inhibit_v1_is_active
  cases hl : server.wlr_session_lock_surface_v1_try_from_wlr_surface wlr_inhibitor.surface <;>
    simp [hlock, hmode, hsurf, hl]

/-- Witness for C3: under a lock, the record on the mapped lock surface 30 is active and
the record on surface 11 of the visible view 1 is not. -/
theorem is_active_locked_application_witness :
    (∃ b, sway_idle_inhibit_v1_is_active (demo_server (some 7) no_focus)
        (application_record 1 30) = some b ∧
      (b = true ↔
        ((demo_server (some 7) no_focus).wlr_session_lock_surface_v1_try_from_wlr_surface
            30).isSome = true ∧
          (demo_server (some 7) no_focus).mapped 30 = true)) ∧
    sway_idle_inhibit_v1_is_active (demo_server (some 7) no_focus)
        (application_record 1 30) = some true :=
  ⟨(is_active_locked_application (demo_server (some 7) no_focus) (application_record 1 30)
      { surface := 30 } (by decide) (by decide) (by decide)).1, by decide⟩

/-- C4: with no session lock, an APPLICATION record (carrying its protocol inhibitor)
evaluates as follows.  On a layer surface it is active iff the layer surface has an
output, that output is enabled, and the surface is mapped, whatever `view_is_visible`
answers.  On any other surface it is inactive when the surface resolves to no view, and
otherwise active iff the resolved view has a container and is visible. -/
theorem is_active_unlocked_application (server : sway_server)
    (inhibitor : sway_idle_inhibitor_v1) (wlr_inhibitor : wlr_idle_inhibitor_v1)
    (hlock : server.session_lock_lock = none)
    (hmode : inhibitor.mode = INHIBIT_IDLE_APPLICATION)
    (hsurf : inhibitor.wlr_inhibitor = some wlr_inhibitor) :
    (∀ layer_surface,
      server.wlr_layer_surface_v1_try_from_wlr_surface wlr_inhibitor.surface =
          some layer_surface →
        (∃ b, sway_idle_inhibit_v1_is_active server inhibitor = some b ∧
          (b = true ↔
            (∃ output, layer_surface.output = some output ∧ output.enabled = true) ∧
              server.mapped wlr_inhibitor.surface = true)) ∧
        ∀ visible : sway_view → Bool,
          sway_idle_inhibit_v1_is_active { server with view_is_visible := visible }
              inhibitor =
            sway_idle_inhibit_v1_is_active server inhibitor) ∧
    (server.wlr_layer_surface_v1_try_from_wlr_surface wlr_inhibitor.surface = none →
      (server.view_from_wlr_surface wlr_inhibitor.surface = none →
        sway_idle_inhibit_v1_is_active server inhibitor = some false) ∧
      ∀ view, server.view_from_wlr_surface wlr_inhibitor.surface = some view →
        ∃ b, sway_idle_inhibit_v1_is_active server inhibitor = some b ∧
          (b = true ↔
            (server.view_container view).isSome = true ∧
              server.view_is_visible view = true)) := by
  refine ⟨fun layer_surface hl => ⟨?_, fun visible => ?_⟩, fun hl => ⟨fun hv => ?_, fun view hv => ?_⟩⟩
  · unfold sway_idle_inhibit_v1_is_active
    cases ho : layer_surface.output <;> simp [hlock, hmode, hsurf, hl, ho]
  · unfold sway_idle_inhibit_v1_is_active
    simp [hlock, hmode, hsurf, hl]
  · unfold sway_idle_inhibit_v1_is_active
    simp [hlock, hmode, hsurf, hl, hv]
  · unfold sway_idle_inhibit_v1_is_active
    cases hc : server.view_container view <;> simp [hlock, hmode, hsurf, hl, hv, hc]

/-- Witness for C4: with no lock, the record on the layer surface 20 (enabled output,
mapped) is active, and the record on surface 12, whose view 2 has a container but is
not visible, gets the value the equivalence gives. -/
theorem is_active_unlocked_application_witness :
    sway_idle_inhibit_v1_is_active (demo_server none no_focus) (application_record 1 20) =
        some true ∧
      ∃ b, sway_idle_inhibit_v1_is_active (demo_server none no_focus)
          (application_record 2 12) = some b ∧
        (b = true ↔
          ((demo_server none no_focus).view_container 2).isSome = true ∧
            (demo_server none no_focus).view_is_visible 2 = true) :=
  ⟨by decide,
   (is_active_unlocked_application (demo_server none no_focus) (application_record 2 12)
      { surface := 12 } (by decide) (by decide) (by decide)).2 (by decide) |>.2 2
        (by decide)⟩

/-- C5: with no session lock, a FOCUS record on a view is active iff some seat of the
seat list has a focused container whose view is that view; and on the registry holding
only that record, `sway_idle_inhibit_v1_check_active` publishes that very value. -/
theorem is_active_unlocked_focus (server : sway_server)
    (inhibitor : sway_idle_inhibitor_v1) (view : sway_view)
    (hlock : server.session_lock_lock = none)
    (hmode : inhibitor.mode = INHIBIT_IDLE_FOCUS)
    (hview : inhibitor.view = some view) :
    ∃ b, sway_idle_inhibit_v1_is_active server inhibitor = some b ∧
      (b = true ↔
        ∃ seat ∈ server.seats, ∃ con,
          server.seat_get_focused_container seat = some con ∧
            server.container_view con = some view) ∧
      ∀ published : List Bool,
        sway_idle_inhibit_v1_check_active server
            { inhibitors := [inhibitor], set_inhibited := published } =
          some { inhibitors := [inhibitor], set_inhibited := b :: published } := by
  have hval : ∃ b, sway_idle_inhibit_v1_is_active server inhibitor = some b ∧
      (b = true ↔
        ∃ seat ∈ server.seats, ∃ con,
          server.seat_get_focused_container seat = some con ∧
            server.container_view con = some view) := by
    unfold sway_idle_inhibit_v1_is_active
    simp only [hlock, hmode, hview, Option.isSome_none, Bool.false_eq_true, if_false]
    refine ⟨_, rfl, ?_⟩
    rw [List.any_eq_true]
    constructor
    · rintro ⟨seat, hs, h⟩
      cases hc : server.seat_get_focused_container seat with
      | none => simp [hc] at h
      | some con =>
        cases hv : server.container_view con with
        | none => simp [hc, hv] at h
        | some v =>
          simp [hc, hv] at h
          exact ⟨seat, hs, con, hc, by rw [hv, h]⟩
    · rintro ⟨seat, hs, con, hc, hv⟩
      exact ⟨seat, hs, by simp [hc, hv]⟩
  obtain ⟨b, hb, hiff⟩ := hval
  refine ⟨b, hb, hiff, fun published => ?_⟩
  unfold sway_idle_inhibit_v1_check_active check_active_loop
  cases b <;> simp [hb, check_active_loop]

/-- Witness for C5: the FOCUS record on view 1 is inactive while no seat focuses it and
active once the second seat focuses container 101, which holds view 1. -/
theorem is_active_unlocked_focus_witness :
    sway_idle_inhibit_v1_is_active (demo_server none no_focus)
        (view_record 1 INHIBIT_IDLE_FOCUS 1) = some false ∧
      ∃ b, sway_idle_inhibit_v1_is_active (demo_server none focus_101_on_seat_1)
          (view_record 1 INHIBIT_IDLE_FOCUS 1) = some b ∧
        (b = true ↔
          ∃ seat ∈ (demo_server none focus_101_on_seat_1).seats, ∃ con,
            (demo_server none focus_101_on_seat_1).seat_get_focused_container seat =
                some con ∧
              (demo_server none focus_101_on_seat_1).container_view con = some 1) ∧
        ∀ published : List Bool,
          sway_idle_inhibit_v1_check_active (demo_server none focus_101_on_seat_1)
              { inhibitors := [view_record 1 INHIBIT_IDLE_FOCUS 1]
                set_inhibited := published } =
            some { inhibitors := [view_record 1 INHIBIT_IDLE_FOCUS 1]
                   set_inhibited := b :: published } :=
  ⟨by decide,
   is_active_unlocked_focus (demo_server none focus_101_on_seat_1)
     (view_record 1 INHIBIT_IDLE_FOCUS 1) 1 rfl rfl rfl⟩

/-- C6: with no session lock, a FULLSCREEN record on a view is active iff the view has a
container for which `container_is_fullscreen_or_child` holds and the view is visible;
so it is inactive on every view that is not visible. -/
theorem is_active_unlocked_fullscreen (server : sway_server)
    (inhibitor : sway_idle_inhibitor_v1) (view : sway_view)
    (hlock : server.session_lock_lock = none)
    (hmode : inhibitor.mode = INHIBIT_IDLE_FULLSCREEN)
    (hview : inhibitor.view = some view) :
    (∃ b, sway_idle_inhibit_v1_is_active server inhibitor = some b ∧
      (b = true ↔
        (∃ con, server.view_container view = some con ∧
          server.container_is_fullscreen_or_child con = true) ∧
          server.view_is_visible view = true)) ∧
    (server.view_is_visible view = false →
      sway_idle_inhibit_v1_is_active server inhibitor = some false) := by
  unfold sway_idle_inhibit_v1_is_active
  cases hc : server.view_container view <;>
    cases hv : server.view_is_visible view <;> simp [hlock, hmode, hview, hc, hv]

/-- Witness for C6: view 2 is fullscreen and not visible; its FULLSCREEN record is
inactive. -/
theorem is_active_unlocked_fullscreen_witness :
    (demo_server none no_focus).container_is_fullscreen_or_child 102 = true ∧
      sway_idle_inhibit_v1_is_active (demo_server none no_focus)
        (view_record 1 INHIBIT_IDLE_FULLSCREEN 2) = some false :=
  ⟨by decide,
   (is_active_unlocked_fullscreen (demo_server none no_focus)
      (view_record 1 INHIBIT_IDLE_FULLSCREEN 2) 2 rfl rfl rfl).2 (by decide)⟩

/-- C7, as stated, fails: view 3 has no container, there is no lock, and the OPEN record
on view 3 is active. -/
theorem is_active_open_without_container :
    (demo_server none no_focus).view_container 3 = none ∧
      (view_record 1 INHIBIT_IDLE_OPEN 3).view = some 3 ∧
      sway_idle_inhibit_v1_is_active (demo_server none no_focus)
        (view_record 1 INHIBIT_IDLE_OPEN 3) = some true := by
  decide

/-- C7, amended: for a view with no container, the predicate returns false (and does
return) under a lock for every record of mode FOCUS, FULLSCREEN, OPEN or VISIBLE, and
with no lock for a FULLSCREEN record on the view, for an APPLICATION record whose
surface is not a layer surface and resolves to the view, and for a FOCUS record on the
view when every container holding a view is that view's container.  With no lock an
OPEN record is active all the same. -/
theorem is_active_without_container (server : sway_server)
    (inhibitor : sway_idle_inhibitor_v1) (view : sway_view)
    (hcon : server.view_container view = none) :
    (server.session_lock_lock.isSome = true →
      inhibitor.mode ≠ INHIBIT_IDLE_APPLICATION →
      sway_idle_inhibit_v1_is_active server inhibitor = some false) ∧
    (server.session_lock_lock = none →
      inhibitor.mode = INHIBIT_IDLE_FULLSCREEN → inhibitor.view = some view →
      sway_idle_inhibit_v1_is_active server inhibitor = some false) ∧
    (server.session_lock_lock = none →
      inhibitor.mode = INHIBIT_IDLE_APPLICATION →
      ∀ wlr_inhibitor, inhibitor.wlr_inhibitor = some wlr_inhibitor →
        server.wlr_layer_surface_v1_try_from_wlr_surface wlr_inhibitor.surface = none →
        server.view_from_wlr_surface wlr_inhibitor.surface = some view →
        sway_idle_inhibit_v1_is_active server inhibitor = some false) ∧
    (server.session_lock_lock = none →
      inhibitor.mode = INHIBIT_IDLE_FOCUS → inhibitor.view = some view →
      (∀ con v, server.container_view con = some v → server.view_container v = some con) →
      sway_idle_inhibit_v1_is_active server inhibitor = some false) ∧
    (server.session_lock_lock = none →
      inhibitor.mode = INHIBIT_IDLE_OPEN →
      sway_idle_inhibit_v1_is_active server inhibitor = some true) := by
  refine ⟨fun hlock hmode => ?_, fun hlock hmode hview => ?_,
    fun hlock hmode w hsurf hl hv => ?_, fun hlock hmode hview htree => ?_,
    fun hlock hmode => ?_⟩
  · unfold sway_idle_inhibit_v1_is_active
    simp [hlock, hmode]
  · unfold sway_idle_inhibit_v1_is_active
    simp [hlock, hmode, hview, hcon]
  · unfold sway_idle_inhibit_v1_is_active
    simp [hlock, hmode, hsurf, hl, hv, hcon]
  · unfold sway_idle_inhibit_v1_is_active
    simp only [hlock, hmode, hview, Option.isSome_none, Bool.false_eq_true, if_false]
    congr 1
    rw [List.any_eq_false]
    intro seat _
    cases hc : server.seat_get_focused_container seat with
    | none => simp
    | some con =>
      cases hv : server.container_view con with
      | none => simp [hv]
      | some v =>
        have h1 := htree con v hv
        have hne : v ≠ view := by
          intro he
          rw [he, hcon] at h1
          exact Option.noConfusion h1
        simp [hv, hne]
  · unfold sway_idle_inhibit_v1_is_active
    simp [hlock, hmode]

/-- Witness for C7 amended: view 3 has no container; with no lock, its FULLSCREEN record
is inactive. -/
theorem is_active_without_container_witness :
    (demo_server none no_focus).view_container 3 = none ∧
      sway_idle_inhibit_v1_is_active (demo_server none no_focus)
        (view_record 1 INHIBIT_IDLE_FULLSCREEN 3) = some false :=
  ⟨by decide,
   (is_active_without_container (demo_server none no_focus)
      (view_record 1 INHIBIT_IDLE_FULLSCREEN 3) 3 (by decide)).2.1 rfl rfl rfl⟩

theorem find_addr_of_mem :
    ∀ (inhibitors : List sway_idle_inhibitor_v1) (r : sway_idle_inhibitor_v1),
      distinct_addresses inhibitors → r ∈ inhibitors →
      inhibitors.find? (fun x => x.addr == r.addr) = some r
  | [], _, _, hr => absurd hr (List.not_mem_nil _)
  | x :: rest, r, hd, hr => by
    unfold distinct_addresses at hd
    rw [List.map_cons, List.nodup_cons] at hd
    rcases List.mem_cons.mp hr with h | h
    · subst h
      simp [List.find?_cons]
    · have hne : x.addr ≠ r.addr := by
        intro he
        exact hd.1 (he ▸ List.mem_map_of_mem (fun r => r.addr) h)
      have hb : (x.addr == r.addr) = false := by simpa using hne
      rw [List.find?_cons, hb]
      exact find_addr_of_mem rest r hd.2 h

theorem eraseP_addr_of_mem :
    ∀ (inhibitors : List sway_idle_inhibitor_v1) (r : sway_idle_inhibitor_v1),
      distinct_addresses inhibitors → r ∈ inhibitors →
      inhibitors.eraseP (fun x => x.addr == r.addr) = inhibitors.erase r ∧
        r ∉ inhibitors.erase r
  | [], _, _, hr => absurd hr (List.not_mem_nil _)
  | x :: rest, r, hd, hr => by
    have hd0 := hd
    unfold distinct_addresses at hd
    rw [List.map_cons, List.nodup_cons] at hd
    have hnd : (x :: rest).Nodup := List.Nodup.of_map _ hd0
    refine ⟨?_, fun hm => ((hnd.mem_erase_iff).mp hm).1 rfl⟩
    rcases List.mem_cons.mp hr with h | h
    · subst h
      simp [List.eraseP_cons]
    · have hne : x.addr ≠ r.addr := by
        intro he
        exact hd.1 (he ▸ List.mem_map_of_mem (fun r => r.addr) h)
      have hb : (x.addr == r.addr) = false := by simpa using hne
      have hxr : x ≠ r := fun he => hne (by rw [he])
      have hb2 : (x == r) = false := by simpa using hxr
      rw [List.eraseP_cons, hb, List.erase_cons, hb2]
      simp only [Bool.false_eq_true, if_false]
      rw [(eraseP_addr_of_mem rest r hd.2 h).1]
      rfl

theorem evaluates_erase (server : sway_server) (inhibitors : List sway_idle_inhibitor_v1)
    (r : sway_idle_inhibitor_v1)
    (h : ∀ x ∈ inhibitors, sway_idle_inhibit_v1_is_active server x ≠ none) :
    ∀ x ∈ inhibitors.erase r, sway_idle_inhibit_v1_is_active server x ≠ none :=
  fun x hx => h x (List.mem_of_mem_erase hx)

theorem is_active_view_record (server : sway_server) (addr : Nat)
    (mode : sway_idle_inhibit_mode) (view : sway_view)
    (hmode : mode ≠ INHIBIT_IDLE_APPLICATION) :
    sway_idle_inhibit_v1_is_active server
      { addr := addr, mode := mode, view := some view, wlr_inhibitor := none } ≠ none := by
  unfold sway_idle_inhibit_v1_is_active
  cases hl : server.session_lock_lock.isSome
  · cases mode
    · exact absurd rfl hmode
    · simp
    · cases hc : server.view_container view <;> simp [hc]
    · simp
    · simp
  · simp [hmode]

theorem is_active_application_record (server : sway_server) (addr : Nat)
    (wlr_inhibitor : wlr_idle_inhibitor_v1) :
    sway_idle_inhibit_v1_is_active server
      { addr := addr, mode := INHIBIT_IDLE_APPLICATION, view := none,
        wlr_inhibitor := some wlr_inhibitor } ≠ none := by
  unfold sway_idle_inhibit_v1_is_active
  cases hl : server.session_lock_lock.isSome
  · cases hs : server.wlr_layer_surface_v1_try_from_wlr_surface wlr_inhibitor.surface with
    | some layer_surface => cases ho : layer_surface.output <;> simp [hs, ho]
    | none =>
      cases hv : server.view_from_wlr_surface wlr_inhibitor.surface with
      | none => simp [hs, hv]
      | some view => cases hc : server.view_container view <;> simp [hs, hv, hc]
  · cases hk : server.wlr_session_lock_surface_v1_try_from_wlr_surface
      wlr_inhibitor.surface <;> simp [hk]

theorem destroy_inhibitor_eq (server : sway_server)
    (manager : sway_idle_inhibit_manager_v1) (r : sway_idle_inhibitor_v1)
    (hd : distinct_addresses manager.inhibitors) (hr : r ∈ manager.inhibitors)
    (h : ∀ x ∈ manager.inhibitors.erase r, sway_idle_inhibit_v1_is_active server x ≠ none) :
    destroy_inhibitor server manager r.addr =
      some { inhibitors := manager.inhibitors.erase r
             set_inhibited :=
               any_active server (manager.inhibitors.erase r) :: manager.set_inhibited } := by
  unfold destroy_inhibitor
  rw [find_addr_of_mem manager.inhibitors r hd hr,
    (eraseP_addr_of_mem manager.inhibitors r hd hr).1]
  exact check_active_eq server _ h

/-- C8: on a registry whose records evaluate, each mutation of the registry ends with a
publication of the OR of the activation predicate over the registry as the mutation
left it: `handle_idle_inhibitor_v1` and `sway_idle_inhibit_v1_user_inhibitor_register`
(with a window mode) put the new record at the head and count it, and
`destroy_inhibitor` on a record of the registry removes it and no longer counts it. -/
theorem mutation_publishes_or (server : sway_server)
    (manager : sway_idle_inhibit_manager_v1)
    (h : ∀ r ∈ manager.inhibitors, sway_idle_inhibit_v1_is_active server r ≠ none) :
    (∀ (addr : Nat) (wlr_inhibitor : wlr_idle_inhibitor_v1), ∃ after,
      handle_idle_inhibitor_v1 server manager (some addr) wlr_inhibitor = some after ∧
        after.inhibitors =
          { addr := addr, mode := INHIBIT_IDLE_APPLICATION, view := none,
            wlr_inhibitor := some wlr_inhibitor } :: manager.inhibitors ∧
        last_published after = some (any_active server after.inhibitors)) ∧
    (∀ (addr : Nat) (view : sway_view) (mode : sway_idle_inhibit_mode),
      mode ≠ INHIBIT_IDLE_APPLICATION → ∃ after,
        sway_idle_inhibit_v1_user_inhibitor_register server manager (some addr) view mode =
            some after ∧
          after.inhibitors =
            { addr := addr, mode := mode, view := some view,
              wlr_inhibitor := none } :: manager.inhibitors ∧
          last_published after = some (any_active server after.inhibitors)) ∧
    (∀ r ∈ manager.inhibitors, distinct_addresses manager.inhibitors → ∃ after,
      destroy_inhibitor server manager r.addr = some after ∧
        after.inhibitors = manager.inhibitors.erase r ∧
        r ∉ after.inhibitors ∧
        last_published after = some (any_active server after.inhibitors)) := by
  refine ⟨fun addr wlr_inhibitor => ?_, fun addr view mode hmode => ?_, fun r hr hd => ?_⟩
  · refine ⟨_, check_active_eq server _ ?_, rfl, rfl⟩
    intro x hx
    rcases List.mem_cons.mp hx with hx | hx
    · rw [hx]
      exact is_active_application_record server addr wlr_inhibitor
    · exact h x hx
  · refine ⟨_, check_active_eq server _ ?_, rfl, rfl⟩
    intro x hx
    rcases List.mem_cons.mp hx with hx | hx
    · rw [hx]
      exact is_active_view_record server addr mode view hmode
    · exact h x hx
  · exact ⟨_, destroy_inhibitor_eq server manager r hd hr
        (evaluates_erase server _ r h), rfl,
      (eraseP_addr_of_mem manager.inhibitors r hd hr).2, rfl⟩

/-- Witness for C8: with no lock, destroying the OPEN record of a registry that also
holds a FOCUS record on the unfocused view 1 publishes `false`. -/
theorem mutation_publishes_or_witness :
    destroy_inhibitor (demo_server none no_focus)
        { inhibitors := [view_record 2 INHIBIT_IDLE_OPEN 2, view_record 1 INHIBIT_IDLE_FOCUS 1]
          set_inhibited := [true] } 2 =
      some { inhibitors := [view_record 1 INHIBIT_IDLE_FOCUS 1]
             set_inhibited := [false, true] } ∧
    ∃ after,
      destroy_inhibitor (demo_server none no_focus)
          { inhibitors :=
              [view_record 2 INHIBIT_IDLE_OPEN 2, view_record 1 INHIBIT_IDLE_FOCUS 1]
            set_inhibited := [true] } (view_record 2 INHIBIT_IDLE_OPEN 2).addr = some after ∧
        after.inhibitors =
          [view_record 2 INHIBIT_IDLE_OPEN 2, view_record 1 INHIBIT_IDLE_FOCUS 1].erase
            (view_record 2 INHIBIT_IDLE_OPEN 2) ∧
        view_record 2 INHIBIT_IDLE_OPEN 2 ∉ after.inhibitors ∧
        last_published after =
          some (any_active (demo_server none no_focus) after.inhibitors) :=
  ⟨by decide,
   (mutation_publishes_or (demo_server none no_focus)
      { inhibitors := [view_record 2 INHIBIT_IDLE_OPEN 2, view_record 1 INHIBIT_IDLE_FOCUS 1]
        set_inhibited := [true] } (by decide)).2.2
      (view_record 2 INHIBIT_IDLE_OPEN 2) (by decide) (by unfold distinct_addresses; decide)⟩

/-- C9: in a registry of distinct records, `sway_idle_inhibit_v1_user_inhibitor_destroy`
returns the state it was given (same records in the same order, nothing published) on
the null handle and on every APPLICATION record of the registry; on a record of any
other mode it removes that record (the remaining records evaluating). -/
theorem user_inhibitor_destroy_spec (server : sway_server)
    (manager : sway_idle_inhibit_manager_v1)
    (hd : distinct_addresses manager.inhibitors) :
    sway_idle_inhibit_v1_user_inhibitor_destroy server manager none = some manager ∧
    (∀ r ∈ manager.inhibitors, r.mode = INHIBIT_IDLE_APPLICATION →
      sway_idle_inhibit_v1_user_inhibitor_destroy server manager (some r.addr) =
        some manager) ∧
    (∀ r ∈ manager.inhibitors, r.mode ≠ INHIBIT_IDLE_APPLICATION →
      (∀ x ∈ manager.inhibitors.erase r,
        sway_idle_inhibit_v1_is_active server x ≠ none) →
      ∃ after,
        sway_idle_inhibit_v1_user_inhibitor_destroy server manager (some r.addr) =
            some after ∧
          after.inhibitors = manager.inhibitors.erase r ∧
          r ∉ after.inhibitors) := by
  refine ⟨rfl, fun r hr hmode => ?_, fun r hr hmode h => ?_⟩
  · unfold sway_idle_inhibit_v1_user_inhibitor_destroy
    simp [find_addr_of_mem manager.inhibitors r hd hr, hmode, sway_assert]
  · refine ⟨⟨manager.inhibitors.erase r,
        any_active server (manager.inhibitors.erase r) :: manager.set_inhibited⟩,
      ?_, rfl, (eraseP_addr_of_mem manager.inhibitors r hd hr).2⟩
    unfold sway_idle_inhibit_v1_user_inhibitor_destroy
    simp only [find_addr_of_mem manager.inhibitors r hd hr, hmode, ne_eq,
      not_false_eq_true, sway_assert, decide_True, Bool.not_true, Bool.false_eq_true,
      if_false]
    exact destroy_inhibitor_eq server manager r hd hr h

/-- Witness for C9: the user-facing destroy of the APPLICATION record at address 2
changes nothing. -/
theorem user_inhibitor_destroy_spec_witness :
    sway_idle_inhibit_v1_user_inhibitor_destroy (demo_server none no_focus)
        { inhibitors := [view_record 1 INHIBIT_IDLE_FOCUS 1, application_record 2 11]
          set_inhibited := [true] } (some (application_record 2 11).addr) =
      some { inhibitors := [view_record 1 INHIBIT_IDLE_FOCUS 1, application_record 2 11]
             set_inhibited := [true] } ∧
    sway_idle_inhibit_v1_user_inhibitor_destroy (demo_server none no_focus)
        { inhibitors := [view_record 1 INHIBIT_IDLE_FOCUS 1, application_record 2 11]
          set_inhibited := [true] } (some 1) =
      some { inhibitors := [application_record 2 11], set_inhibited := [true, true] } :=
  ⟨(user_inhibitor_destroy_spec (demo_server none no_focus)
      { inhibitors := [view_record 1 INHIBIT_IDLE_FOCUS 1, application_record 2 11]
        set_inhibited := [true] } (by unfold distinct_addresses; decide)).2.1
      (application_record 2 11) (by decide) rfl,
   by decide⟩

theorem application_inhibitor_for_view_loop_spec (server : sway_server)
    (view : Option sway_view) :
    ∀ inhibitors : List sway_idle_inhibitor_v1,
      (∀ r ∈ inhibitors, r.mode = INHIBIT_IDLE_APPLICATION → r.wlr_inhibitor ≠ none) →
      ∃ result, application_inhibitor_for_view_loop server view inhibitors = some result ∧
        (result = none ↔
          ∀ r ∈ inhibitors, ¬(r.mode = INHIBIT_IDLE_APPLICATION ∧
            ∃ w, r.wlr_inhibitor = some w ∧ server.view_from_wlr_surface w.surface = view)) ∧
        ∀ r, result = some r →
          r ∈ inhibitors ∧ r.mode = INHIBIT_IDLE_APPLICATION ∧
            ∃ w, r.wlr_inhibitor = some w ∧ server.view_from_wlr_surface w.surface = view
  | [], _ => ⟨none, rfl, by simp, by simp⟩
  | x :: rest, h => by
    obtain ⟨res, hres, hnone, hsome⟩ := application_inhibitor_for_view_loop_spec server view
      rest (fun r hr => h r (List.mem_cons_of_mem x hr))
    unfold application_inhibitor_for_view_loop
    by_cases hm : x.mode = INHIBIT_IDLE_APPLICATION
    · cases hw : x.wlr_inhibitor with
      | none => exact absurd hw (h x (List.mem_cons_self x rest) hm)
      | some w =>
        by_cases hv : server.view_from_wlr_surface w.surface = view
        · refine ⟨some x, by simp [hm, hv], ?_, ?_⟩
          · simp only [reduceCtorEq, false_iff, not_forall]
            exact ⟨x, List.mem_cons_self x rest, fun hx => hx ⟨hm, w, hw, hv⟩⟩
          · intro r hr
            cases hr
            exact ⟨List.mem_cons_self x rest, hm, w, hw, hv⟩
        · refine ⟨res, by simp [hm, hv, hres], ?_, ?_⟩
          · rw [hnone]
            constructor
            · intro hall r hr
              rcases List.mem_cons.mp hr with he | he
              · subst he
                rintro ⟨_, w2, hw2, hv2⟩
                rw [hw] at hw2
                cases hw2
                exact hv hv2
              · exact hall r he
            · exact fun hall r hr => hall r (List.mem_cons_of_mem x hr)
          · intro r hr
            obtain ⟨h1, h2⟩ := hsome r hr
            exact ⟨List.mem_cons_of_mem x h1, h2⟩
    · refine ⟨res, by simp [hm, hres], ?_, ?_⟩
      · rw [hnone]
        constructor
        · intro hall r hr
          rcases List.mem_cons.mp hr with he | he
          · subst he
            exact fun hx => hm hx.1
          · exact hall r he
        · exact fun hall r hr => hall r (List.mem_cons_of_mem x hr)
      · intro r hr
        obtain ⟨h1, h2⟩ := hsome r hr
        exact ⟨List.mem_cons_of_mem x h1, h2⟩

/-- C10: `sway_idle_inhibit_v1_user_inhibitor_for_view` returns no record iff the
registry holds no record of a mode other than APPLICATION on the view, and a record it
returns is such a record of the registry.  When every APPLICATION record carries its
protocol inhibitor, `sway_idle_inhibit_v1_application_inhibitor_for_view` returns, and
returns no record iff the registry holds no APPLICATION record whose surface resolves to
the view, and a record it returns is such a record of the registry. -/
theorem inhibitor_for_view_spec (server : sway_server)
    (manager : sway_idle_inhibit_manager_v1) (view : sway_view) :
    ((sway_idle_inhibit_v1_user_inhibitor_for_view manager (some view) = none ↔
        ∀ r ∈ manager.inhibitors,
          ¬(r.mode ≠ INHIBIT_IDLE_APPLICATION ∧ r.view = some view)) ∧
      ∀ r, sway_idle_inhibit_v1_user_inhibitor_for_view manager (some view) = some r →
        r ∈ manager.inhibitors ∧ r.mode ≠ INHIBIT_IDLE_APPLICATION ∧ r.view = some view) ∧
    ((∀ r ∈ manager.inhibitors,
        r.mode = INHIBIT_IDLE_APPLICATION → r.wlr_inhibitor ≠ none) →
      ∃ result,
        sway_idle_inhibit_v1_application_inhibitor_for_view server manager (some view) =
            some result ∧
          (result = none ↔
            ∀ r ∈ manager.inhibitors, ¬(r.mode = INHIBIT_IDLE_APPLICATION ∧
              ∃ w, r.wlr_inhibitor = some w ∧
                server.view_from_wlr_surface w.surface = some view)) ∧
          ∀ r, result = some r →
            r ∈ manager.inhibitors ∧ r.mode = INHIBIT_IDLE_APPLICATION ∧
              ∃ w, r.wlr_inhibitor = some w ∧
                server.view_from_wlr_surface w.surface = some view) := by
  refine ⟨⟨?_, fun r hr => ?_⟩, fun h => ?_⟩
  · unfold sway_idle_inhibit_v1_user_inhibitor_for_view
    rw [List.find?_eq_none]
    simp
  · unfold sway_idle_inhibit_v1_user_inhibitor_for_view at hr
    have hp := List.find?_some hr
    have hm := List.mem_of_find?_eq_some hr
    simp only [Bool.and_eq_true, decide_eq_true_eq] at hp
    exact ⟨hm, hp.1, hp.2⟩
  · exact application_inhibitor_for_view_loop_spec server (some view) manager.inhibitors h

/-- Witness for C10: in the registry holding a VISIBLE record on view 2 and the
APPLICATION record on surface 12 of view 2, the application lookup for view 2 returns;
the two lookups give the two records. -/
theorem inhibitor_for_view_spec_witness :
    (sway_idle_inhibit_v1_user_inhibitor_for_view
        { inhibitors := [application_record 2 12, view_record 1 INHIBIT_IDLE_VISIBLE 2]
          set_inhibited := [] } (some 2) = some (view_record 1 INHIBIT_IDLE_VISIBLE 2) ∧
      sway_idle_inhibit_v1_application_inhibitor_for_view (demo_server none no_focus)
        { inhibitors := [view_record 1 INHIBIT_IDLE_VISIBLE 2, application_record 2 12]
          set_inhibited := [] } (some 2) = some (some (application_record 2 12))) ∧
    ∃ result,
      sway_idle_inhibit_v1_application_inhibitor_for_view (demo_server none no_focus)
          { inhibitors := [view_record 1 INHIBIT_IDLE_VISIBLE 2, application_record 2 12]
            set_inhibited := [] } (some 2) = some result ∧
        (result = none ↔
          ∀ r ∈ [view_record 1 INHIBIT_IDLE_VISIBLE 2, application_record 2 12],
            ¬(r.mode = INHIBIT_IDLE_APPLICATION ∧
              ∃ w, r.wlr_inhibitor = some w ∧
                (demo_server none no_focus).view_from_wlr_surface w.surface = some 2)) ∧
        ∀ r, result = some r →
          r ∈ [view_record 1 INHIBIT_IDLE_VISIBLE 2, application_record 2 12] ∧
            r.mode = INHIBIT_IDLE_APPLICATION ∧
            ∃ w, r.wlr_inhibitor = some w ∧
              (demo_server none no_focus).view_from_wlr_surface w.surface = some 2 :=
  ⟨by decide,
   (inhibitor_for_view_spec (demo_server none no_focus)
      { inhibitors := [view_record 1 INHIBIT_IDLE_VISIBLE 2, application_record 2 12]
        set_inhibited := [] } 2).2 (by decide)⟩

theorem application_inhibitor_for_view_loop_first (server : sway_server)
    (view : sway_view) :
    ∀ (inhibitors : List sway_idle_inhibitor_v1) (r : sway_idle_inhibitor_v1),
      application_inhibitor_for_view_loop server (some view) inhibitors = some (some r) →
      ∃ l₁ l₂, inhibitors = l₁ ++ r :: l₂ ∧ ∀ x ∈ l₁, ¬application_match server view x
  | [], r, h => by simp [application_inhibitor_for_view_loop] at h
  | x :: rest, r, h => by
    unfold application_inhibitor_for_view_loop at h
    by_cases hm : x.mode = INHIBIT_IDLE_APPLICATION
    · cases hw : x.wlr_inhibitor with
      | none => simp [hm, hw] at h
      | some w =>
        by_cases hv : server.view_from_wlr_surface w.surface = some view
        · simp only [hm, hw, hv, if_true, Option.some.injEq] at h
          exact ⟨[], rest, by rw [h]; rfl, by simp⟩
        · simp only [hm, hw, hv, if_true, if_false] at h
          obtain ⟨l₁, l₂, he, hl⟩ :=
            application_inhibitor_for_view_loop_first server view rest r h
          refine ⟨x :: l₁, l₂, by rw [he]; rfl, fun y hy => ?_⟩
          rcases List.mem_cons.mp hy with hy | hy
          · subst hy
            rintro ⟨_, w2, hw2, hv2⟩
            rw [hw] at hw2
            cases hw2
            exact hv hv2
          · exact hl y hy
    · simp only [hm, if_false] at h
      obtain ⟨l₁, l₂, he, hl⟩ :=
        application_inhibitor_for_view_loop_first server view rest r h
      refine ⟨x :: l₁, l₂, by rw [he]; rfl, fun y hy => ?_⟩
      rcases List.mem_cons.mp hy with hy | hy
      · subst hy
        exact fun hx => hm hx.1
      · exact hl y hy

theorem evaluates_cons_view_record (server : sway_server)
    (inhibitors : List sway_idle_inhibitor_v1) (addr : Nat)
    (mode : sway_idle_inhibit_mode) (view : sway_view)
    (hmode : mode ≠ INHIBIT_IDLE_APPLICATION)
    (h : ∀ r ∈ inhibitors, sway_idle_inhibit_v1_is_active server r ≠ none) :
    ∀ r ∈ ({ addr := addr, mode := mode, view := some view, wlr_inhibitor := none } ::
        inhibitors : List sway_idle_inhibitor_v1),
      sway_idle_inhibit_v1_is_active server r ≠ none := by
  intro x hx
  rcases List.mem_cons.mp hx with hx | hx
  · rw [hx]
    exact is_active_view_record server addr mode view hmode
  · exact h x hx

theorem evaluates_cons_application_record (server : sway_server)
    (inhibitors : List sway_idle_inhibitor_v1) (addr : Nat)
    (wlr_inhibitor : wlr_idle_inhibitor_v1)
    (h : ∀ r ∈ inhibitors, sway_idle_inhibit_v1_is_active server r ≠ none) :
    ∀ r ∈ ({ addr := addr, mode := INHIBIT_IDLE_APPLICATION, view := none,
             wlr_inhibitor := some wlr_inhibitor } :: inhibitors :
        List sway_idle_inhibitor_v1),
      sway_idle_inhibit_v1_is_active server r ≠ none := by
  intro x hx
  rcases List.mem_cons.mp hx with hx | hx
  · rw [hx]
    exact is_active_application_record server addr wlr_inhibitor
  · exact h x hx

/-- C11, as stated, fails: a FOCUS record and then an OPEN record are registered on
view 1; the lookup returns the OPEN record, the one registered last, and the registry
lists it first. -/
theorem lookup_returns_second_registered :
    ((sway_idle_inhibit_v1_user_inhibitor_register (demo_server none no_focus)
        empty_manager (some 1) 1 INHIBIT_IDLE_FOCUS).bind fun m =>
      sway_idle_inhibit_v1_user_inhibitor_register (demo_server none no_focus)
        m (some 2) 1 INHIBIT_IDLE_OPEN) =
      some { inhibitors := [view_record 2 INHIBIT_IDLE_OPEN 1, view_record 1 INHIBIT_IDLE_FOCUS 1]
             set_inhibited := [true, false] } ∧
    sway_idle_inhibit_v1_user_inhibitor_for_view
        { inhibitors := [view_record 2 INHIBIT_IDLE_OPEN 1, view_record 1 INHIBIT_IDLE_FOCUS 1]
          set_inhibited := [true, false] } (some 1) =
      some (view_record 2 INHIBIT_IDLE_OPEN 1) := by
  decide

/-- C11, amended: the registry lists the records newest first, each registration putting
its record at the head, and a lookup returns the matching record registered last: right
after a registration on a view the lookup for that view returns the new record, and in
general no record listed before the returned one (none registered after it) matches. -/
theorem lookup_returns_latest_match (server : sway_server)
    (manager : sway_idle_inhibit_manager_v1) (view : sway_view)
    (h : ∀ r ∈ manager.inhibitors, sway_idle_inhibit_v1_is_active server r ≠ none) :
    (∀ (addr : Nat) (mode : sway_idle_inhibit_mode), mode ≠ INHIBIT_IDLE_APPLICATION →
      ∃ after,
        sway_idle_inhibit_v1_user_inhibitor_register server manager (some addr) view mode =
            some after ∧
          after.inhibitors =
            { addr := addr, mode := mode, view := some view,
              wlr_inhibitor := none } :: manager.inhibitors ∧
          sway_idle_inhibit_v1_user_inhibitor_for_view after (some view) =
            some { addr := addr, mode := mode, view := some view, wlr_inhibitor := none }) ∧
    (∀ (addr : Nat) (wlr_inhibitor : wlr_idle_inhibitor_v1),
      server.view_from_wlr_surface wlr_inhibitor.surface = some view →
      ∃ after,
        handle_idle_inhibitor_v1 server manager (some addr) wlr_inhibitor = some after ∧
          after.inhibitors =
            { addr := addr, mode := INHIBIT_IDLE_APPLICATION, view := none,
              wlr_inhibitor := some wlr_inhibitor } :: manager.inhibitors ∧
          sway_idle_inhibit_v1_application_inhibitor_for_view server after (some view) =
            some (some { addr := addr, mode := INHIBIT_IDLE_APPLICATION, view := none,
                         wlr_inhibitor := some wlr_inhibitor })) ∧
    (∀ r, sway_idle_inhibit_v1_user_inhibitor_for_view manager (some view) = some r →
      ∃ l₁ l₂, manager.inhibitors = l₁ ++ r :: l₂ ∧ ∀ x ∈ l₁, ¬user_match view x) ∧
    (∀ r,
      sway_idle_inhibit_v1_application_inhibitor_for_view server manager (some view) =
          some (some r) →
      ∃ l₁ l₂, manager.inhibitors = l₁ ++ r :: l₂ ∧
        ∀ x ∈ l₁, ¬application_match server view x) := by
  refine ⟨fun addr mode hmode => ?_, fun addr w hv => ?_, fun r hr => ?_, fun r hr => ?_⟩
  · refine ⟨_, check_active_eq server _
      (evaluates_cons_view_record server _ addr mode view hmode h), rfl, ?_⟩
    simp [sway_idle_inhibit_v1_user_inhibitor_for_view, hmode]
  · refine ⟨_, check_active_eq server _
      (evaluates_cons_application_record server _ addr w h), rfl, ?_⟩
    simp [sway_idle_inhibit_v1_application_inhibitor_for_view,
      application_inhibitor_for_view_loop, hv]
  · unfold sway_idle_inhibit_v1_user_inhibitor_for_view at hr
    obtain ⟨_, l₁, l₂, he, hl⟩ := List.find?_eq_some.mp hr
    refine ⟨l₁, l₂, he, fun x hx hm => ?_⟩
    have := hl x hx
    simp [hm.1, hm.2] at this
  · exact application_inhibitor_for_view_loop_first server view manager.inhibitors r hr

/-- Witness for C11 amended: with a FOCUS record on view 1 already registered, an OPEN
record registered on view 1 is what the lookup returns. -/
theorem lookup_returns_latest_match_witness :
    ∃ after,
      sway_idle_inhibit_v1_user_inhibitor_register (demo_server none no_focus)
          { inhibitors := [view_record 1 INHIBIT_IDLE_FOCUS 1], set_inhibited := [false] }
          (some 2) 1 INHIBIT_IDLE_OPEN = some after ∧
        after.inhibitors =
          { addr := 2, mode := INHIBIT_IDLE_OPEN, view := some 1,
            wlr_inhibitor := none } :: [view_record 1 INHIBIT_IDLE_FOCUS 1] ∧
        sway_idle_inhibit_v1_user_inhibitor_for_view after (some 1) =
          some { addr := 2, mode := INHIBIT_IDLE_OPEN, view := some 1,
                 wlr_inhibitor := none } :=
  (lookup_returns_latest_match (demo_server none no_focus)
    { inhibitors := [view_record 1 INHIBIT_IDLE_FOCUS 1], set_inhibited := [false] } 1
    (by decide)).1 2 INHIBIT_IDLE_OPEN (by decide)

/-- C12: with no session lock, registering an OPEN record on a view, on any registry,
publishes `true`; and when that record is the only one of the registry, destroying it,
by `destroy_inhibitor` as on unmap or by the user-facing destroy, leaves the registry
empty and publishes `false`. -/
theorem register_open_then_destroy (server : sway_server)
    (manager : sway_idle_inhibit_manager_v1) (addr : Nat) (view : sway_view)
    (hlock : server.session_lock_lock = none) :
    sway_idle_inhibit_v1_user_inhibitor_register server manager (some addr) view
        INHIBIT_IDLE_OPEN =
      some { inhibitors :=
               { addr := addr, mode := INHIBIT_IDLE_OPEN, view := some view,
                 wlr_inhibitor := none } :: manager.inhibitors
             set_inhibited := true :: manager.set_inhibited } ∧
    ∀ published : List Bool,
      destroy_inhibitor server
          { inhibitors :=
              [{ addr := addr, mode := INHIBIT_IDLE_OPEN, view := some view,
                 wlr_inhibitor := none }]
            set_inhibited := published } addr =
        some { inhibitors := [], set_inhibited := false :: published } ∧
      sway_idle_inhibit_v1_user_inhibitor_destroy server
          { inhibitors :=
              [{ addr := addr, mode := INHIBIT_IDLE_OPEN, view := some view,
                 wlr_inhibitor := none }]
            set_inhibited := published } (some addr) =
        some { inhibitors := [], set_inhibited := false :: published } := by
  have hd : ∀ published : List Bool,
      destroy_inhibitor server
          { inhibitors :=
              [{ addr := addr, mode := INHIBIT_IDLE_OPEN, view := some view,
                 wlr_inhibitor := none }]
            set_inhibited := published } addr =
        some { inhibitors := [], set_inhibited := false :: published } := by
    intro published
    simp [destroy_inhibitor, sway_idle_inhibit_v1_check_active, check_active_loop]
  refine ⟨?_, fun published => ⟨hd published, ?_⟩⟩
  · simp [sway_idle_inhibit_v1_user_inhibitor_register, sway_idle_inhibit_v1_check_active,
      check_active_loop, sway_idle_inhibit_v1_is_active, hlock]
  · unfold sway_idle_inhibit_v1_user_inhibitor_destroy
    simp only [List.find?_cons, beq_self_eq_true, sway_assert, ne_eq, reduceCtorEq,
      not_false_eq_true, decide_True, Bool.not_true, Bool.false_eq_true, if_false]
    exact hd published

/-- Witness for C12: on a registry that already holds an inactive FOCUS record, with no
lock, registering an OPEN record on view 3 publishes `true`. -/
theorem register_open_then_destroy_witness :
    sway_idle_inhibit_v1_user_inhibitor_register (demo_server none no_focus)
        { inhibitors := [view_record 1 INHIBIT_IDLE_FOCUS 1], set_inhibited := [false] }
        (some 2) 3 INHIBIT_IDLE_OPEN =
      some { inhibitors :=
               { addr := 2, mode := INHIBIT_IDLE_OPEN, view := some 3,
                 wlr_inhibitor := none } :: [view_record 1 INHIBIT_IDLE_FOCUS 1]
             set_inhibited := true :: [false] } :=
  (register_open_then_destroy (demo_server none no_focus)
    { inhibitors := [view_record 1 INHIBIT_IDLE_FOCUS 1], set_inhibited := [false] }
    2 3 rfl).1

/-- C13: on the empty registry `sway_idle_inhibit_v1_check_active` publishes `false`, in
every snapshot of the windowing and session-lock state. -/
theorem check_active_empty (server : sway_server) (published : List Bool) :
    sway_idle_inhibit_v1_check_active server
        { inhibitors := [], set_inhibited := published } =
      some { inhibitors := [], set_inhibited := false :: published } :=
  rfl

/-- C14: when the allocation fails, `handle_idle_inhibitor_v1` and
`sway_idle_inhibit_v1_user_inhibitor_register` return the state they were given: same
registry, nothing published, the last published value as before. -/
theorem registration_allocation_failure (server : sway_server)
    (manager : sway_idle_inhibit_manager_v1) (wlr_inhibitor : wlr_idle_inhibitor_v1)
    (view : sway_view) (mode : sway_idle_inhibit_mode) :
    handle_idle_inhibitor_v1 server manager none wlr_inhibitor = some manager ∧
      sway_idle_inhibit_v1_user_inhibitor_register server manager none view mode =
        some manager ∧
      (handle_idle_inhibitor_v1 server manager none wlr_inhibitor).map last_published =
        some (last_published manager) ∧
      (sway_idle_inhibit_v1_user_inhibitor_register server manager none view mode).map
          last_published =
        some (last_published manager) :=
  ⟨rfl, rfl, rfl, rfl⟩

theorem is_active_of_target_matches_mode (server : sway_server)
    (r : sway_idle_inhibitor_v1) (h : target_matches_mode r) :
    sway_idle_inhibit_v1_is_active server r ≠ none := by
  obtain ⟨addr, mode, view, wlr_inhibitor⟩ := r
  unfold target_matches_mode at h
  by_cases hm : mode = INHIBIT_IDLE_APPLICATION
  · simp only [hm, if_true] at h
    cases wlr_inhibitor with
    | none => simp at h
    | some w =>
      rw [hm, h.2]
      exact is_active_application_record server addr w
  · simp only [hm, if_false] at h
    cases view with
    | none => simp at h
    | some v =>
      rw [h.2]
      exact is_active_view_record server addr mode v hm

theorem destroy_inhibitor_of_mem (server : sway_server)
    (manager : sway_idle_inhibit_manager_v1) (r : sway_idle_inhibitor_v1)
    (hr : r ∈ manager.inhibitors)
    (h : ∀ x ∈ manager.inhibitors, sway_idle_inhibit_v1_is_active server x ≠ none) :
    destroy_inhibitor server manager r.addr =
      some { inhibitors := manager.inhibitors.eraseP fun x => x.addr == r.addr
             set_inhibited :=
               any_active server (manager.inhibitors.eraseP fun x => x.addr == r.addr) ::
                 manager.set_inhibited } := by
  unfold destroy_inhibitor
  cases hf : manager.inhibitors.find? (fun x => x.addr == r.addr) with
  | none =>
    have := List.find?_eq_none.mp hf r hr
    simp at this
  | some _ =>
    exact check_active_eq server _ (fun x hx => h x (List.mem_of_mem_eraseP hx))

/-- C15, as stated, fails: `sway_idle_inhibit_v1_user_inhibitor_register` called with
mode APPLICATION does not check the mode; it inserts an APPLICATION record that carries
a view and no protocol inhibitor, and the scan that follows has no result on it. -/
theorem register_application_mode_unchecked :
    sway_idle_inhibit_v1_user_inhibitor_register (demo_server none no_focus) empty_manager
        (some 1) 1 INHIBIT_IDLE_APPLICATION =
      sway_idle_inhibit_v1_check_active (demo_server none no_focus)
        { inhibitors :=
            [{ addr := 1, mode := INHIBIT_IDLE_APPLICATION, view := some 1,
               wlr_inhibitor := none }]
          set_inhibited := [] } ∧
    sway_idle_inhibit_v1_user_inhibitor_register (demo_server none no_focus) empty_manager
        (some 1) 1 INHIBIT_IDLE_APPLICATION = none ∧
    ¬target_matches_mode
        { addr := 1, mode := INHIBIT_IDLE_APPLICATION, view := some 1,
          wlr_inhibitor := none } := by
  decide

/-- C15, amended: on a registry whose records all have the shape their mode asks for,
every operation returns and leaves such a registry, provided
`sway_idle_inhibit_v1_user_inhibitor_register` is given a mode other than APPLICATION:
the two registrations (allocation succeeding or failing), `destroy_inhibitor` and the
user-facing destroy on a record of the registry, and the aggregator, which leaves the
registry as it is. -/
theorem operations_preserve_target_shape (server : sway_server)
    (manager : sway_idle_inhibit_manager_v1)
    (hinv : ∀ r ∈ manager.inhibitors, target_matches_mode r) :
    (∀ (calloc : Option Nat) (wlr_inhibitor : wlr_idle_inhibitor_v1), ∃ after,
      handle_idle_inhibitor_v1 server manager calloc wlr_inhibitor = some after ∧
        ∀ r ∈ after.inhibitors, target_matches_mode r) ∧
    (∀ (calloc : Option Nat) (view : sway_view) (mode : sway_idle_inhibit_mode),
      mode ≠ INHIBIT_IDLE_APPLICATION → ∃ after,
        sway_idle_inhibit_v1_user_inhibitor_register server manager calloc view mode =
            some after ∧
          ∀ r ∈ after.inhibitors, target_matches_mode r) ∧
    (∀ r ∈ manager.inhibitors, ∃ after,
      destroy_inhibitor server manager r.addr = some after ∧
        ∀ x ∈ after.inhibitors, target_matches_mode x) ∧
    (∀ r ∈ manager.inhibitors, ∃ after,
      sway_idle_inhibit_v1_user_inhibitor_destroy server manager (some r.addr) =
          some after ∧
        ∀ x ∈ after.inhibitors, target_matches_mode x) ∧
    (∃ after, sway_idle_inhibit_v1_check_active server manager = some after ∧
      after.inhibitors = manager.inhibitors) := by
  have hev : ∀ r ∈ manager.inhibitors, sway_idle_inhibit_v1_is_active server r ≠ none :=
    fun r hr => is_active_of_target_matches_mode server r (hinv r hr)
  have hdestroy : ∀ r ∈ manager.inhibitors, ∃ after,
      destroy_inhibitor server manager r.addr = some after ∧
        ∀ x ∈ after.inhibitors, target_matches_mode x :=
    fun r hr => ⟨_, destroy_inhibitor_of_mem server manager r hr hev,
      fun x hx => hinv x (List.mem_of_mem_eraseP hx)⟩
  refine ⟨fun calloc w => ?_, fun calloc view mode hmode => ?_, hdestroy, fun r hr => ?_,
    ⟨_, check_active_eq server manager hev, rfl⟩⟩
  · cases calloc with
    | none => exact ⟨manager, rfl, hinv⟩
    | some addr =>
      refine ⟨_, check_active_eq server _
        (evaluates_cons_application_record server _ addr w hev), fun x hx => ?_⟩
      rcases List.mem_cons.mp hx with hx | hx
      · rw [hx]
        simp [target_matches_mode]
      · exact hinv x hx
  · cases calloc with
    | none => exact ⟨manager, rfl, hinv⟩
    | some addr =>
      refine ⟨_, check_active_eq server _
        (evaluates_cons_view_record server _ addr mode view hmode hev), fun x hx => ?_⟩
      rcases List.mem_cons.mp hx with hx | hx
      · rw [hx]
        simp [target_matches_mode, hmode]
      · exact hinv x hx
  · unfold sway_idle_inhibit_v1_user_inhibitor_destroy
    cases hf : manager.inhibitors.find? (fun x => x.addr == r.addr) with
    | none =>
      have := List.find?_eq_none.mp hf r hr
      simp at this
    | some found =>
      by_cases hm : found.mode = INHIBIT_IDLE_APPLICATION
      · exact ⟨manager, by simp [sway_assert, hm, hf], hinv⟩
      · obtain ⟨after, hafter, hshape⟩ := hdestroy r hr
        exact ⟨after, by simp [sway_assert, hm, hafter, hf], hshape⟩

/-- Witness for C15 amended: registering a VISIBLE record on view 2 on a registry that
holds an APPLICATION record keeps the shape invariant. -/
theorem operations_preserve_target_shape_witness :
    ∃ after,
      sway_idle_inhibit_v1_user_inhibitor_register (demo_server none no_focus)
          { inhibitors := [application_record 1 11], set_inhibited := [true] }
          (some 2) 2 INHIBIT_IDLE_VISIBLE = some after ∧
        ∀ r ∈ after.inhibitors, target_matches_mode r :=
  (operations_preserve_target_shape (demo_server none no_focus)
    { inhibitors := [application_record 1 11], set_inhibited := [true] }
    (by decide)).2.1 (some 2) 2 INHIBIT_IDLE_VISIBLE (by decide)

theorem addr_ne_of_mem_erase (inhibitors : List sway_idle_inhibitor_v1)
    (r : sway_idle_inhibitor_v1) (hd : distinct_addresses inhibitors)
    (hr : r ∈ inhibitors) : ∀ x ∈ inhibitors.erase r, x.addr ≠ r.addr := by
  intro x hx he
  have hnd : inhibitors.Nodup := List.Nodup.of_map _ hd
  have hx2 := (hnd.mem_erase_iff).mp hx
  exact hx2.1 (List.inj_on_of_nodup_map hd hx2.2 hr he)

theorem find_addr_erase (inhibitors : List sway_idle_inhibitor_v1)
    (r : sway_idle_inhibitor_v1) (hd : distinct_addresses inhibitors)
    (hr : r ∈ inhibitors) :
    (inhibitors.erase r).find? (fun x => x.addr == r.addr) = none := by
  rw [List.find?_eq_none]
  intro x hx
  simpa using addr_ne_of_mem_erase inhibitors r hd hr x hx

/-- C16, as stated, fails: once the only record, at address 1, has been destroyed, the
handle names no record, and a second destroy through either function has no result
instead of returning the registry unchanged. -/
theorem second_destroy_undefined :
    destroy_inhibitor (demo_server none no_focus)
        { inhibitors := [view_record 1 INHIBIT_IDLE_OPEN 1], set_inhibited := [true] } 1 =
      some { inhibitors := [], set_inhibited := [false, true] } ∧
    destroy_inhibitor (demo_server none no_focus)
        { inhibitors := [], set_inhibited := [false, true] } 1 = none ∧
    sway_idle_inhibit_v1_user_inhibitor_destroy (demo_server none no_focus)
        { inhibitors := [], set_inhibited := [false, true] } (some 1) = none := by
  decide

/-- C16, amended: in a registry of distinct records, the first destroy of a record
removes it, after which no record of the registry has its address; the code has no guard
for a handle used again, and a second destroy of that handle, through
`destroy_inhibitor` or through the user-facing destroy, has no defined result. -/
theorem destroy_twice (server : sway_server) (manager : sway_idle_inhibit_manager_v1)
    (r : sway_idle_inhibitor_v1)
    (hd : distinct_addresses manager.inhibitors) (hr : r ∈ manager.inhibitors)
    (h : ∀ x ∈ manager.inhibitors.erase r,
      sway_idle_inhibit_v1_is_active server x ≠ none) :
    ∃ after,
      destroy_inhibitor server manager r.addr = some after ∧
        (r.mode ≠ INHIBIT_IDLE_APPLICATION →
          sway_idle_inhibit_v1_user_inhibitor_destroy server manager (some r.addr) =
            some after) ∧
        after.inhibitors = manager.inhibitors.erase r ∧
        (∀ x ∈ after.inhibitors, x.addr ≠ r.addr) ∧
        destroy_inhibitor server after r.addr = none ∧
        sway_idle_inhibit_v1_user_inhibitor_destroy server after (some r.addr) = none := by
  refine ⟨⟨manager.inhibitors.erase r,
      any_active server (manager.inhibitors.erase r) :: manager.set_inhibited⟩,
    destroy_inhibitor_eq server manager r hd hr h, fun hmode => ?_, rfl,
    addr_ne_of_mem_erase manager.inhibitors r hd hr, ?_, ?_⟩
  · unfold sway_idle_inhibit_v1_user_inhibitor_destroy
    simp only [find_addr_of_mem manager.inhibitors r hd hr, hmode, ne_eq,
      not_false_eq_true, sway_assert, decide_True, Bool.not_true, Bool.false_eq_true,
      if_false]
    exact destroy_inhibitor_eq server manager r hd hr h
  · unfold destroy_inhibitor
    simp only [find_addr_erase manager.inhibitors r hd hr]
  · unfold sway_idle_inhibit_v1_user_inhibitor_destroy
    simp only [find_addr_erase manager.inhibitors r hd hr]

/-- Witness for C16 amended: the FOCUS record at address 1 is destroyed, leaving the
APPLICATION record; a second destroy of address 1 has no result. -/
theorem destroy_twice_witness :
    ∃ after,
      destroy_inhibitor (demo_server none no_focus)
          { inhibitors := [view_record 1 INHIBIT_IDLE_FOCUS 1, application_record 2 11]
            set_inhibited := [true] } (view_record 1 INHIBIT_IDLE_FOCUS 1).addr =
          some after ∧
        ((view_record 1 INHIBIT_IDLE_FOCUS 1).mode ≠ INHIBIT_IDLE_APPLICATION →
          sway_idle_inhibit_v1_user_inhibitor_destroy (demo_server none no_focus)
              { inhibitors := [view_record 1 INHIBIT_IDLE_FOCUS 1, application_record 2 11]
                set_inhibited := [true] }
              (some (view_record 1 INHIBIT_IDLE_FOCUS 1).addr) = some after) ∧
        after.inhibitors =
          [view_record 1 INHIBIT_IDLE_FOCUS 1, application_record 2 11].erase
            (view_record 1 INHIBIT_IDLE_FOCUS 1) ∧
        (∀ x ∈ after.inhibitors, x.addr ≠ (view_record 1 INHIBIT_IDLE_FOCUS 1).addr) ∧
        destroy_inhibitor (demo_server none no_focus) after
            (view_record 1 INHIBIT_IDLE_FOCUS 1).addr = none ∧
        sway_idle_inhibit_v1_user_inhibitor_destroy (demo_server none no_focus) after
            (some (view_record 1 INHIBIT_IDLE_FOCUS 1).addr) = none :=
  destroy_twice (demo_server none no_focus)
    { inhibitors := [view_record 1 INHIBIT_IDLE_FOCUS 1, application_record 2 11]
      set_inhibited := [true] }
    (view_record 1 INHIBIT_IDLE_FOCUS 1) (by unfold distinct_addresses; decide)
    (by decide) (by decide)

theorem is_active_locked_agree (s₁ s₂ : sway_server) (r : sway_idle_inhibitor_v1)
    (h₁ : s₁.session_lock_lock.isSome = true) (h₂ : s₂.session_lock_lock.isSome = true)
    (hagree : r.mode = INHIBIT_IDLE_APPLICATION → ∀ w, r.wlr_inhibitor = some w →
      (s₁.wlr_session_lock_surface_v1_try_from_wlr_surface w.surface).isSome =
          (s₂.wlr_session_lock_surface_v1_try_from_wlr_surface w.surface).isSome ∧
        s₁.mapped w.surface = s₂.mapped w.surface) :
    sway_idle_inhibit_v1_is_active s₁ r = sway_idle_inhibit_v1_is_active s₂ r := by
  unfold sway_idle_inhibit_v1_is_active
  by_cases hm : r.mode = INHIBIT_IDLE_APPLICATION
  · cases hw : r.wlr_inhibitor with
    | none => simp [h₁, h₂, hm]
    | some w =>
      obtain ⟨ha, hb⟩ := hagree hm w hw
      have ha2 : (s₁.wlr_session_lock_surface_v1_try_from_wlr_surface w.surface).isNone =
          (s₂.wlr_session_lock_surface_v1_try_from_wlr_surface w.surface).isNone := by
        cases hx : s₁.wlr_session_lock_surface_v1_try_from_wlr_surface w.surface <;>
          cases hy : s₂.wlr_session_lock_surface_v1_try_from_wlr_surface w.surface <;>
          simp [hx, hy] at ha ⊢
      simp only [h₁, h₂, hm, if_true, ne_eq, not_true_eq_false, if_false, ha2, hb]
  · simp [h₁, h₂, hm]

theorem check_active_loop_locked_agree (s₁ s₂ : sway_server)
    (h₁ : s₁.session_lock_lock.isSome = true) (h₂ : s₂.session_lock_lock.isSome = true) :
    ∀ inhibitors : List sway_idle_inhibitor_v1,
      (∀ r ∈ inhibitors, r.mode = INHIBIT_IDLE_APPLICATION → ∀ w, r.wlr_inhibitor = some w →
        (s₁.wlr_session_lock_surface_v1_try_from_wlr_surface w.surface).isSome =
            (s₂.wlr_session_lock_surface_v1_try_from_wlr_surface w.surface).isSome ∧
          s₁.mapped w.surface = s₂.mapped w.surface) →
      check_active_loop s₁ inhibitors = check_active_loop s₂ inhibitors
  | [], _ => rfl
  | r :: rest, hagree => by
    unfold check_active_loop
    rw [is_active_locked_agree s₁ s₂ r h₁ h₂ (hagree r (List.mem_cons_self r rest)),
      check_active_loop_locked_agree s₁ s₂ h₁ h₂ rest
        (fun x hx => hagree x (List.mem_cons_of_mem r hx))]

theorem is_active_locked_evaluates (server : sway_server) (r : sway_idle_inhibitor_v1)
    (hlock : server.session_lock_lock.isSome = true)
    (h : r.mode = INHIBIT_IDLE_APPLICATION → r.wlr_inhibitor ≠ none) :
    sway_idle_inhibit_v1_is_active server r ≠ none := by
  unfold sway_idle_inhibit_v1_is_active
  by_cases hm : r.mode = INHIBIT_IDLE_APPLICATION
  · cases hw : r.wlr_inhibitor with
    | none => exact absurd hw (h hm)
    | some w =>
      cases hk : server.wlr_session_lock_surface_v1_try_from_wlr_surface w.surface <;>
        simp [hlock, hm, hk]
  · simp [hlock, hm]

/-- C17: for two snapshots that both have a session lock active and that agree, for each
APPLICATION record of the registry, on whether its surface is a session-lock surface and
on whether it is mapped, `sway_idle_inhibit_v1_check_active` gives the same result,
whatever else differs between the snapshots; and it does publish a value when every
APPLICATION record carries its protocol inhibitor. -/
theorem check_active_locked_noninterference (s₁ s₂ : sway_server)
    (manager : sway_idle_inhibit_manager_v1)
    (h₁ : s₁.session_lock_lock.isSome = true) (h₂ : s₂.session_lock_lock.isSome = true)
    (hagree : ∀ r ∈ manager.inhibitors, r.mode = INHIBIT_IDLE_APPLICATION →
      ∀ w, r.wlr_inhibitor = some w →
        (s₁.wlr_session_lock_surface_v1_try_from_wlr_surface w.surface).isSome =
            (s₂.wlr_session_lock_surface_v1_try_from_wlr_surface w.surface).isSome ∧
          s₁.mapped w.surface = s₂.mapped w.surface) :
    sway_idle_inhibit_v1_check_active s₁ manager =
        sway_idle_inhibit_v1_check_active s₂ manager ∧
      ((∀ r ∈ manager.inhibitors,
          r.mode = INHIBIT_IDLE_APPLICATION → r.wlr_inhibitor ≠ none) →
        ∃ inhibited,
          sway_idle_inhibit_v1_check_active s₁ manager =
            some { inhibitors := manager.inhibitors
                   set_inhibited := inhibited :: manager.set_inhibited }) := by
  constructor
  · unfold sway_idle_inhibit_v1_check_active
    rw [check_active_loop_locked_agree s₁ s₂ h₁ h₂ manager.inhibitors hagree]
  · intro hshape
    exact ⟨_, check_active_eq s₁ manager
      (fun r hr => is_active_locked_evaluates s₁ r h₁ (hshape r hr))⟩

/-- Witness for C17: two locked snapshots that differ in focus, visibility, fullscreen
status and layer surfaces publish the same value, `true`, on a registry holding a
VISIBLE record, an APPLICATION record on a layer surface and one on the lock surface. -/
theorem check_active_locked_noninterference_witness :
    sway_idle_inhibit_v1_check_active (demo_server (some 7) no_focus)
        { inhibitors :=
            [view_record 1 INHIBIT_IDLE_VISIBLE 1, application_record 2 20,
             application_record 3 30]
          set_inhibited := [] } =
      sway_idle_inhibit_v1_check_active demo_server_behind_lock
        { inhibitors :=
            [view_record 1 INHIBIT_IDLE_VISIBLE 1, application_record 2 20,
             application_record 3 30]
          set_inhibited := [] } ∧
    sway_idle_inhibit_v1_check_active demo_server_behind_lock
        { inhibitors :=
            [view_record 1 INHIBIT_IDLE_VISIBLE 1, application_record 2 20,
             application_record 3 30]
          set_inhibited := [] } =
      some { inhibitors :=
               [view_record 1 INHIBIT_IDLE_VISIBLE 1, application_record 2 20,
                application_record 3 30]
             set_inhibited := [true] } :=
  ⟨(check_active_locked_noninterference (demo_server (some 7) no_focus)
      demo_server_behind_lock
      { inhibitors :=
          [view_record 1 INHIBIT_IDLE_VISIBLE 1, application_record 2 20,
           application_record 3 30]
        set_inhibited := [] } (by decide) (by decide)
      (fun _ _ _ _ _ => ⟨rfl, rfl⟩)).1,
   by decide⟩

/-- C18: on a registry whose records evaluate, registering a record of a window mode on
a view succeeds; the user lookup for that view then returns the record just registered,
which has that mode and that view; and the user-facing destroy of its handle returns a
registry equal to the one before the registration. -/
theorem register_lookup_destroy (server : sway_server)
    (manager : sway_idle_inhibit_manager_v1) (addr : Nat) (view : sway_view)
    (mode : sway_idle_inhibit_mode)
    (hmode : mode ≠ INHIBIT_IDLE_APPLICATION)
    (h : ∀ r ∈ manager.inhibitors, sway_idle_inhibit_v1_is_active server r ≠ none) :
    ∃ after found final,
      sway_idle_inhibit_v1_user_inhibitor_register server manager (some addr) view mode =
          some after ∧
        sway_idle_inhibit_v1_user_inhibitor_for_view after (some view) = some found ∧
        found = { addr := addr, mode := mode, view := some view, wlr_inhibitor := none } ∧
        after.inhibitors = found :: manager.inhibitors ∧
        sway_idle_inhibit_v1_user_inhibitor_destroy server after (some found.addr) =
          some final ∧
        final.inhibitors = manager.inhibitors := by
  refine ⟨⟨{ addr := addr, mode := mode, view := some view, wlr_inhibitor := none } ::
        manager.inhibitors,
      any_active server
          ({ addr := addr, mode := mode, view := some view, wlr_inhibitor := none } ::
            manager.inhibitors) :: manager.set_inhibited⟩,
    { addr := addr, mode := mode, view := some view, wlr_inhibitor := none },
    ⟨manager.inhibitors,
      any_active server manager.inhibitors ::
        any_active server
          ({ addr := addr, mode := mode, view := some view, wlr_inhibitor := none } ::
            manager.inhibitors) :: manager.set_inhibited⟩,
    check_active_eq server _ (evaluates_cons_view_record server _ addr mode view hmode h),
    ?_, rfl, rfl, ?_, rfl⟩
  · simp [sway_idle_inhibit_v1_user_inhibitor_for_view, hmode]
  · unfold sway_idle_inhibit_v1_user_inhibitor_destroy destroy_inhibitor
    simp only [List.find?_cons, beq_self_eq_true, sway_assert, ne_eq, hmode,
      not_false_eq_true, decide_True, Bool.not_true, Bool.false_eq_true, if_false,
      List.eraseP_cons, cond_true]
    exact check_active_eq server ⟨manager.inhibitors, _⟩ h

/-- Witness for C18: a FULLSCREEN record on view 2 is registered on a registry holding
an APPLICATION record, found by the lookup, and destroyed again. -/
theorem register_lookup_destroy_witness :
    ∃ after found final,
      sway_idle_inhibit_v1_user_inhibitor_register (demo_server none no_focus)
          { inhibitors := [application_record 1 11], set_inhibited := [true] }
          (some 2) 2 INHIBIT_IDLE_FULLSCREEN = some after ∧
        sway_idle_inhibit_v1_user_inhibitor_for_view after (some 2) = some found ∧
        found =
          { addr := 2, mode := INHIBIT_IDLE_FULLSCREEN, view := some 2,
            wlr_inhibitor := none } ∧
        after.inhibitors = found :: [application_record 1 11] ∧
        sway_idle_inhibit_v1_user_inhibitor_destroy (demo_server none no_focus) after
            (some found.addr) = some final ∧
        final.inhibitors = [application_record 1 11] :=
  register_lookup_destroy (demo_server none no_focus)
    { inhibitors := [application_record 1 11], set_inhibited := [true] }
    2 2 INHIBIT_IDLE_FULLSCREEN (by decide) (by decide)

/-- C19: on a registry of distinct records that evaluate, `destroy_inhibitor` on a record
of the registry removes that record alone, the records before and after it staying as
they are and in their order, and the length going down by one; each registration puts
one new record at the head and leaves the others as they are, the length going up by
one; and the aggregator leaves the registry as it is. -/
theorem operations_frame (server : sway_server) (manager : sway_idle_inhibit_manager_v1)
    (hd : distinct_addresses manager.inhibitors)
    (h : ∀ r ∈ manager.inhibitors, sway_idle_inhibit_v1_is_active server r ≠ none) :
    (∀ r ∈ manager.inhibitors, ∃ after l₁ l₂,
      destroy_inhibitor server manager r.addr = some after ∧
        manager.inhibitors = l₁ ++ r :: l₂ ∧
        after.inhibitors = l₁ ++ l₂ ∧
        r ∉ after.inhibitors ∧
        after.inhibitors.length + 1 = manager.inhibitors.length) ∧
    (∀ (addr : Nat) (wlr_inhibitor : wlr_idle_inhibitor_v1), ∃ after,
      handle_idle_inhibitor_v1 server manager (some addr) wlr_inhibitor = some after ∧
        after.inhibitors =
          { addr := addr, mode := INHIBIT_IDLE_APPLICATION, view := none,
            wlr_inhibitor := some wlr_inhibitor } :: manager.inhibitors ∧
        after.inhibitors.length = manager.inhibitors.length + 1) ∧
    (∀ (addr : Nat) (view : sway_view) (mode : sway_idle_inhibit_mode),
      mode ≠ INHIBIT_IDLE_APPLICATION → ∃ after,
        sway_idle_inhibit_v1_user_inhibitor_register server manager (some addr) view mode =
            some after ∧
          after.inhibitors =
            { addr := addr, mode := mode, view := some view,
              wlr_inhibitor := none } :: manager.inhibitors ∧
          after.inhibitors.length = manager.inhibitors.length + 1) ∧
    (∃ after, sway_idle_inhibit_v1_check_active server manager = some after ∧
      after.inhibitors = manager.inhibitors) := by
  refine ⟨fun r hr => ?_, fun addr w => ?_, fun addr view mode hmode => ?_,
    ⟨_, check_active_eq server manager h, rfl⟩⟩
  · obtain ⟨l₁, l₂, _, hl, he⟩ := List.exists_erase_eq hr
    refine ⟨⟨manager.inhibitors.erase r,
        any_active server (manager.inhibitors.erase r) :: manager.set_inhibited⟩, l₁, l₂,
      destroy_inhibitor_eq server manager r hd hr (evaluates_erase server _ r h), hl, he,
      (eraseP_addr_of_mem manager.inhibitors r hd hr).2, ?_⟩
    show (manager.inhibitors.erase r).length + 1 = manager.inhibitors.length
    rw [he, hl]
    simp only [List.length_append, List.length_cons]
    omega
  · exact ⟨_, check_active_eq server _
      (evaluates_cons_application_record server _ addr w h), rfl, rfl⟩
  · exact ⟨_, check_active_eq server _
      (evaluates_cons_view_record server _ addr mode view hmode h), rfl, rfl⟩

/-- Witness for C19: destroying the middle record of three leaves the other two, in
their order. -/
theorem operations_frame_witness :
    destroy_inhibitor (demo_server none no_focus)
        { inhibitors :=
            [view_record 3 INHIBIT_IDLE_FOCUS 1, view_record 2 INHIBIT_IDLE_VISIBLE 2,
             application_record 1 12]
          set_inhibited := [] } 2 =
      some { inhibitors := [view_record 3 INHIBIT_IDLE_FOCUS 1, application_record 1 12]
             set_inhibited := [false] } ∧
    ∃ after l₁ l₂,
      destroy_inhibitor (demo_server none no_focus)
          { inhibitors :=
              [view_record 3 INHIBIT_IDLE_FOCUS 1, view_record 2 INHIBIT_IDLE_VISIBLE 2,
               application_record 1 12]
            set_inhibited := [] } (view_record 2 INHIBIT_IDLE_VISIBLE 2).addr =
          some after ∧
        [view_record 3 INHIBIT_IDLE_FOCUS 1, view_record 2 INHIBIT_IDLE_VISIBLE 2,
            application_record 1 12] =
          l₁ ++ view_record 2 INHIBIT_IDLE_VISIBLE 2 :: l₂ ∧
        after.inhibitors = l₁ ++ l₂ ∧
        view_record 2 INHIBIT_IDLE_VISIBLE 2 ∉ after.inhibitors ∧
        after.inhibitors.length + 1 =
          [view_record 3 INHIBIT_IDLE_FOCUS 1, view_record 2 INHIBIT_IDLE_VISIBLE 2,
            application_record 1 12].length :=
  ⟨by decide,
   (operations_frame (demo_server none no_focus)
      { inhibitors :=
          [view_record 3 INHIBIT_IDLE_FOCUS 1, view_record 2 INHIBIT_IDLE_VISIBLE 2,
           application_record 1 12]
        set_inhibited := [] } (by unfold distinct_addresses; decide) (by decide)).1
      (view_record 2 INHIBIT_IDLE_VISIBLE 2) (by decide)⟩

end Sway
